import Mathlib

/-!
Shallow embedding of `src/server.js`: a minimal HTTP façade over an external
identity provider (Supabase).  Each POST endpoint performs input-presence
validation, at most one delegated provider call, translation of the provider
result into a JSON response, and a catch-all returning a generic 500.

Request bodies are JSON objects; we model JavaScript values (as far as the
handlers inspect them) with `JsValue` and JavaScript truthiness with
`jsTruthy`.  The provider call outcome is a parameter of each handler
(`ProviderResult`): it either resolves to `{data, error: null}`, resolves to
an error object, or rejects (models a thrown exception during the call).
Each handler returns the HTTP response together with the list of provider
calls it performed and whether the catch block logged an error.
-/

/-- JavaScript values, as far as the server inspects or produces them. -/
inductive JsValue where
  | undefined : JsValue
  | null : JsValue
  | bool : Bool → JsValue
  | num : Int → JsValue
  | str : String → JsValue
  | obj : List (String × JsValue) → JsValue

/-- JavaScript truthiness: `undefined`, `null`, `false`, `0` and `""` are
falsy; every object is truthy. -/
def jsTruthy : JsValue → Bool
  | .undefined => false
  | .null => false
  | .bool b => b
  | .num n => n != 0
  | .str s => !s.isEmpty
  | .obj _ => true

def JsValue.isUndefined : JsValue → Bool
  | .undefined => true
  | _ => false

/-- First-key lookup in an object field list (the literals built by the
server have pairwise distinct keys, so first- vs last-key is immaterial). -/
def getField : List (String × JsValue) → String → Option JsValue
  | [], _ => none
  | (k, v) :: rest, key => if k = key then some v else getField rest key

/-- Destructuring a field out of `req.body`: a missing key reads as
`undefined`. -/
def bodyField (body : List (String × JsValue)) (k : String) : JsValue :=
  (getField body k).getD .undefined

/-- `JSON.stringify` (hence `res.json`) drops object entries whose value is
`undefined`; the server only ever produces a possibly-`undefined` value at
the top level (the `token` field). -/
def jsonFields (fs : List (String × JsValue)) : List (String × JsValue) :=
  fs.filter (fun p => !p.2.isUndefined)

/-- Does `cs` start with `pat`?  (Helper for `String.prototype.includes`.) -/
def charsStartWith : List Char → List Char → Bool
  | _, [] => true
  | [], _ :: _ => false
  | c :: cs, p :: ps => c == p && charsStartWith cs ps

/-- Does `cs` contain `pat` as a contiguous run? -/
def charsContain : List Char → List Char → Bool
  | [], pat => pat.isEmpty
  | c :: cs, pat => charsStartWith (c :: cs) pat || charsContain cs pat

/-- `s.includes(pat)` of JavaScript (case-sensitive substring test). -/
def strIncludes (s pat : String) : Bool := charsContain s.data pat.data

/-- The `user` object inside a resolved provider `data`: `email_confirmed_at`
is a timestamp string when the address is confirmed and `null`/absent
otherwise (modelled as `Option String`). -/
structure ProviderUser where
  id : String
  email : String
  email_confirmed_at : Option String

/-- The `session` object inside a resolved provider `data`. -/
structure ProviderSession where
  access_token : String

/-- The `data` part of a resolved provider reply; `user` and `session` may be
`null`. -/
structure AuthData where
  user : Option ProviderUser
  session : Option ProviderSession

/-- The `error` object of a provider reply. -/
structure ProviderError where
  message : String

/-- Outcome of the single awaited provider call of a handler: it resolves to
`{data, error: null}`, resolves to `{error}`, or rejects (an exception is
thrown at the `await`). -/
inductive ProviderResult where
  | ok (data : AuthData)
  | err (e : ProviderError)
  | thrown

/-- JavaScript truthiness of the `email_confirmed_at` field
(`!!data.user.email_confirmed_at`): `null`/absent is falsy, a (nonempty)
timestamp string is truthy. -/
def timestampTruthy : Option String → Bool
  | none => false
  | some s => !s.isEmpty

/-- The arguments of each call the server can make on the provider client. -/
inductive ProviderCall where
  | signUp (email password : JsValue) (emailRedirectTo : String)
  | signInWithPassword (email password : JsValue)
  | signOut
  | verifyOtp (token_hash ty : JsValue)
  | resend (ty : String) (email : JsValue) (emailRedirectTo : String)

/-- An HTTP response: status code and serialized JSON body fields. -/
structure Response where
  status : Nat
  body : List (String × JsValue)

/-- What one request produces: the response sent, the provider calls made,
and whether the catch block logged an error. -/
structure HandlerOutcome where
  response : Response
  calls : List ProviderCall
  logged : Bool

/-- The repeated `{success:false, message}` body shape. -/
def failBody (msg : String) : List (String × JsValue) :=
  [("success", .bool false), ("message", .str msg)]

/-- The body sent by every catch block. -/
def internalErrorResponse : Response :=
  ⟨500, jsonFields (failBody "Internal server error")⟩

/-- The `try { ... } catch` wrapper shared by all five endpoints: a thrown
exception (the `Except.error` case, which carries the provider calls already
made) is logged and answered with the generic 500 body. -/
def catchWrap (t : Except (List ProviderCall) (Response × List ProviderCall)) :
    HandlerOutcome :=
  match t with
  | .ok (r, cs) => ⟨r, cs, false⟩
  | .error cs => ⟨internalErrorResponse, cs, true⟩

/-- `req.headers.origin || 'http://localhost:4200'` — the header value when
it is truthy (present and nonempty), else the local default. -/
def redirectBase : Option String → String
  | some o => if o.isEmpty then "http://localhost:4200" else o
  | none => "http://localhost:4200"

/-- The template literal building `emailRedirectTo`. -/
def redirectUrl (origin : Option String) : String :=
  redirectBase origin ++ "/verify-email"

/-- The `user` object placed in success envelopes. -/
def userJsonFields (u : ProviderUser) : List (String × JsValue) :=
  [("id", .str u.id), ("email", .str u.email),
   ("emailConfirmed", .bool (timestampTruthy u.email_confirmed_at))]

def userJson (u : ProviderUser) : JsValue := .obj (userJsonFields u)

/-- `data.session?.access_token`: `undefined` when `session` is `null`. -/
def tokenValue : Option ProviderSession → JsValue
  | none => .undefined
  | some s => .str s.access_token

/-- Body of `POST /api/signup` (`try` part).  `Except.error` models a thrown
exception: the provider call rejecting, or the `data.user.id` dereference on
a `null` user while the success envelope is being built. -/
def signupTry (body : List (String × JsValue)) (origin : Option String)
    (provider : ProviderResult) :
    Except (List ProviderCall) (Response × List ProviderCall) :=
  let email := bodyField body "email"
  let password := bodyField body "password"
  if !jsTruthy email || !jsTruthy password then
    .ok (⟨400, jsonFields (failBody "Email and password are required")⟩, [])
  else
    let call := ProviderCall.signUp email password (redirectUrl origin)
    match provider with
    | .thrown => .error [call]
    | .err e => .ok (⟨400, jsonFields (failBody e.message)⟩, [call])
    | .ok data =>
      match data.user with
      | none => .error [call]
      | some u =>
        let needsVerification := !timestampTruthy u.email_confirmed_at
        .ok (⟨200, jsonFields
          [("success", .bool true),
           ("needsVerification", .bool needsVerification),
           ("user", userJson u),
           ("token", tokenValue data.session),
           ("message", .str (if needsVerification
             then "Please check your email to verify your account"
             else "Account created successfully"))]⟩, [call])

def signupHandler (body : List (String × JsValue)) (origin : Option String)
    (provider : ProviderResult) : HandlerOutcome :=
  catchWrap (signupTry body origin provider)

/-- Body of `POST /api/login` (`try` part).  On a provider error the message
is tested (case-sensitively) for the substring `Email not confirmed`; on a
resolved call the `data.user.email_confirmed_at` read throws when `user` is
`null`. -/
def loginTry (body : List (String × JsValue)) (provider : ProviderResult) :
    Except (List ProviderCall) (Response × List ProviderCall) :=
  let email := bodyField body "email"
  let password := bodyField body "password"
  if !jsTruthy email || !jsTruthy password then
    .ok (⟨400, jsonFields (failBody "Email and password are required")⟩, [])
  else
    let call := ProviderCall.signInWithPassword email password
    match provider with
    | .thrown => .error [call]
    | .err e =>
      if strIncludes e.message "Email not confirmed" then
        .ok (⟨401, jsonFields
          [("success", .bool false), ("needsVerification", .bool true),
           ("message", .str "Please verify your email before logging in")]⟩,
          [call])
      else
        .ok (⟨401, jsonFields (failBody e.message)⟩, [call])
    | .ok data =>
      match data.user with
      | none => .error [call]
      | some u =>
        if !timestampTruthy u.email_confirmed_at then
          .ok (⟨401, jsonFields
            [("success", .bool false), ("needsVerification", .bool true),
             ("message", .str "Please verify your email before logging in")]⟩,
            [call])
        else
          .ok (⟨200, jsonFields
            [("success", .bool true), ("user", userJson u),
             ("token", tokenValue data.session)]⟩, [call])

def loginHandler (body : List (String × JsValue))
    (provider : ProviderResult) : HandlerOutcome :=
  catchWrap (loginTry body provider)

/-- Body of `POST /api/logout` (`try` part): no input validation, one
`signOut` call, only the `error` component of the reply is inspected. -/
def logoutTry (provider : ProviderResult) :
    Except (List ProviderCall) (Response × List ProviderCall) :=
  let call := ProviderCall.signOut
  match provider with
  | .thrown => .error [call]
  | .err e => .ok (⟨400, jsonFields (failBody e.message)⟩, [call])
  | .ok _ => .ok (⟨200, jsonFields
      [("success", .bool true),
       ("message", .str "Logged out successfully")]⟩, [call])

def logoutHandler (provider : ProviderResult) : HandlerOutcome :=
  catchWrap (logoutTry provider)

/-- Body of `POST /api/verify-email` (`try` part). -/
def verifyEmailTry (body : List (String × JsValue))
    (provider : ProviderResult) :
    Except (List ProviderCall) (Response × List ProviderCall) :=
  let tokenHash := bodyField body "tokenHash"
  let ty := bodyField body "type"
  if !jsTruthy tokenHash || !jsTruthy ty then
    .ok (⟨400, jsonFields (failBody "Token hash and type are required")⟩, [])
  else
    let call := ProviderCall.verifyOtp tokenHash ty
    match provider with
    | .thrown => .error [call]
    | .err e => .ok (⟨400, jsonFields (failBody e.message)⟩, [call])
    | .ok data =>
      match data.user with
      | none => .error [call]
      | some u =>
        .ok (⟨200, jsonFields
          [("success", .bool true),
           ("user", userJson u),
           ("token", tokenValue data.session),
           ("message", .str "Email verified successfully")]⟩, [call])

def verifyEmailHandler (body : List (String × JsValue))
    (provider : ProviderResult) : HandlerOutcome :=
  catchWrap (verifyEmailTry body provider)

/-- Body of `POST /api/resend-verification` (`try` part): the `resend` call
always passes the constant type `"signup"`. -/
def resendVerificationTry (body : List (String × JsValue))
    (origin : Option String) (provider : ProviderResult) :
    Except (List ProviderCall) (Response × List ProviderCall) :=
  let email := bodyField body "email"
  if !jsTruthy email then
    .ok (⟨400, jsonFields (failBody "Email is required")⟩, [])
  else
    let call := ProviderCall.resend "signup" email (redirectUrl origin)
    match provider with
    | .thrown => .error [call]
    | .err e => .ok (⟨400, jsonFields (failBody e.message)⟩, [call])
    | .ok _ => .ok (⟨200, jsonFields
        [("success", .bool true),
         ("message", .str "Verification email sent successfully")]⟩, [call])

def resendVerificationHandler (body : List (String × JsValue))
    (origin : Option String) (provider : ProviderResult) : HandlerOutcome :=
  catchWrap (resendVerificationTry body origin provider)

/-- Modelled from the amended claim C6: the redirect expected to be passed to
the provider — the origin header followed by `/verify-email` when the header
is present and nonempty, the local default otherwise. -/
def expectedRedirect : Option String → String
  | some o => if o.isEmpty then "http://localhost:4200/verify-email"
              else o ++ "/verify-email"
  | none => "http://localhost:4200/verify-email"

/-- Modelled from the implicit claim C8: a well-formed envelope carries a
boolean `success` field that is true exactly when the status is 200, and
every non-200 response also carries a string `message` field. -/
def envelopeOk (r : Response) : Bool :=
  match getField r.body "success" with
  | some (.bool b) =>
    (b == (r.status == 200)) &&
    ((r.status == 200) ||
      (match getField r.body "message" with
       | some (.str _) => true
       | _ => false))
  | _ => false

/-- C1: for every endpoint with required body fields, a missing or falsy
required field yields status 400 with the endpoint's fixed message, and no
provider call is made (the outcome's call list is empty). -/
theorem missing_required_fields_400
    (sbody lbody vbody rbody : List (String × JsValue)) (origin : Option String)
    (p1 p2 p3 p4 : ProviderResult)
    (hs : (!jsTruthy (bodyField sbody "email")
            || !jsTruthy (bodyField sbody "password")) = true)
    (hl : (!jsTruthy (bodyField lbody "email")
            || !jsTruthy (bodyField lbody "password")) = true)
    (hv : (!jsTruthy (bodyField vbody "tokenHash")
            || !jsTruthy (bodyField vbody "type")) = true)
    (hr : (!jsTruthy (bodyField rbody "email")) = true) :
    signupHandler sbody origin p1 =
      ⟨⟨400, failBody "Email and password are required"⟩, [], false⟩ ∧
    loginHandler lbody p2 =
      ⟨⟨400, failBody "Email and password are required"⟩, [], false⟩ ∧
    verifyEmailHandler vbody p3 =
      ⟨⟨400, failBody "Token hash and type are required"⟩, [], false⟩ ∧
    resendVerificationHandler rbody origin p4 =
      ⟨⟨400, failBody "Email is required"⟩, [], false⟩ := by
  refine ⟨?_, ?_, ?_, ?_⟩ <;>
    simp [signupHandler, signupTry, loginHandler, loginTry, verifyEmailHandler,
      verifyEmailTry, resendVerificationHandler, resendVerificationTry,
      catchWrap, jsonFields, failBody, JsValue.isUndefined, hs, hl, hv, hr]

/-- Witness for C1 at concrete falsy inputs (empty bodies and an empty-string
email). -/
theorem missing_required_fields_400_witness :
    signupHandler [] none .thrown =
      ⟨⟨400, failBody "Email and password are required"⟩, [], false⟩ ∧
    loginHandler [("email", .str "a@b.com")] .thrown =
      ⟨⟨400, failBody "Email and password are required"⟩, [], false⟩ ∧
    verifyEmailHandler [("tokenHash", .str "h")] .thrown =
      ⟨⟨400, failBody "Token hash and type are required"⟩, [], false⟩ ∧
    resendVerificationHandler [("email", .str "")] none .thrown =
      ⟨⟨400, failBody "Email is required"⟩, [], false⟩ :=
  missing_required_fields_400 [] [("email", .str "a@b.com")]
    [("tokenHash", .str "h")] [("email", .str "")] none
    .thrown .thrown .thrown .thrown rfl rfl rfl rfl

/-- C2: a login whose provider call resolves without error but whose returned
user has a falsy `email_confirmed_at` is answered 401 with `success:false`
and `needsVerification:true` and the fixed verification message. -/
theorem login_unconfirmed_user_401 (body : List (String × JsValue))
    (data : AuthData) (u : ProviderUser)
    (he : jsTruthy (bodyField body "email") = true)
    (hp : jsTruthy (bodyField body "password") = true)
    (hu : data.user = some u)
    (hc : timestampTruthy u.email_confirmed_at = false) :
    (loginHandler body (.ok data)).response =
      ⟨401, [("success", .bool false), ("needsVerification", .bool true),
             ("message", .str "Please verify your email before logging in")]⟩ := by
  simp [loginHandler, loginTry, catchWrap, he, hp, hu, hc,
    jsonFields, JsValue.isUndefined]

/-- Witness for C2: a concrete login with a user whose confirmation
timestamp is null. -/
theorem login_unconfirmed_user_401_witness :
    (loginHandler [("email", .str "a@b.com"), ("password", .str "pw")]
        (.ok ⟨some ⟨"id1", "a@b.com", none⟩, none⟩)).response =
      ⟨401, [("success", .bool false), ("needsVerification", .bool true),
             ("message", .str "Please verify your email before logging in")]⟩ :=
  login_unconfirmed_user_401 _ _ ⟨"id1", "a@b.com", none⟩
    (by decide) (by decide) rfl rfl

/-- C9: a signup whose provider call resolves without error but with a null
`user` does not send a success envelope: building it dereferences
`data.user.id`, which throws, so the catch block answers 500 with the generic
body (and logs the error); the single provider call was already made. -/
theorem signup_null_user_500 (body : List (String × JsValue))
    (origin : Option String) (data : AuthData)
    (he : jsTruthy (bodyField body "email") = true)
    (hp : jsTruthy (bodyField body "password") = true)
    (hu : data.user = none) :
    signupHandler body origin (.ok data) =
      ⟨⟨500, failBody "Internal server error"⟩,
       [.signUp (bodyField body "email") (bodyField body "password")
          (redirectUrl origin)], true⟩ := by
  simp [signupHandler, signupTry, catchWrap, he, hp, hu,
    internalErrorResponse, jsonFields, failBody, JsValue.isUndefined]

/-- Witness for C9 at a concrete body and a resolved reply with null user. -/
theorem signup_null_user_500_witness :
    signupHandler [("email", .str "a@b.com"), ("password", .str "pw")] none
        (.ok ⟨none, none⟩) =
      ⟨⟨500, failBody "Internal server error"⟩,
       [.signUp (.str "a@b.com") (.str "pw")
          "http://localhost:4200/verify-email"], true⟩ :=
  signup_null_user_500 _ none _ (by decide) (by decide) rfl

/-- C10: every resend-verification request that reaches the provider makes
exactly the `resend` call with the constant type `"signup"`; only the email
field of the body and the redirect URL vary. -/
theorem resend_type_constant (body : List (String × JsValue))
    (origin : Option String) (p : ProviderResult)
    (he : jsTruthy (bodyField body "email") = true) :
    (resendVerificationHandler body origin p).calls =
      [ProviderCall.resend "signup" (bodyField body "email")
        (redirectUrl origin)] := by
  cases p <;>
    simp [resendVerificationHandler, resendVerificationTry, catchWrap, he]

/-- Witness for C10 at a concrete body with extra fields (they do not change
the constant type argument). -/
theorem resend_type_constant_witness :
    (resendVerificationHandler
        [("email", .str "a@b.com"), ("type", .str "recovery")]
        (some "https://app.example") .thrown).calls =
      [ProviderCall.resend "signup" (.str "a@b.com")
        "https://app.example/verify-email"] :=
  resend_type_constant _ _ _ (by decide)

/-- C3 counterexample: the claim reads the tested substring as lowercase
`email not confirmed`, but the code's `includes` test is case-sensitive on
`Email not confirmed`.  A provider error message that contains the lowercase
substring is answered with the plain provider-message 401 body, with no
`needsVerification` field — contradicting the claim's iff. -/
theorem login_lowercase_match_cex :
    strIncludes "email not confirmed" "email not confirmed" = true ∧
    (loginHandler [("email", .str "a@b.com"), ("password", .str "pw")]
        (.err ⟨"email not confirmed"⟩)).response =
      ⟨401, failBody "email not confirmed"⟩ ∧
    getField (loginHandler [("email", .str "a@b.com"), ("password", .str "pw")]
        (.err ⟨"email not confirmed"⟩)).response.body "needsVerification"
      = none := by
  have hm : strIncludes "email not confirmed" "Email not confirmed" = false := by
    decide
  have he : jsTruthy (bodyField
      [("email", .str "a@b.com"), ("password", .str "pw")] "email") = true := by
    decide
  have hp : jsTruthy (bodyField
      [("email", .str "a@b.com"), ("password", .str "pw")] "password")
      = true := by
    decide
  refine ⟨by decide, ?_, ?_⟩ <;>
    simp [loginHandler, loginTry, catchWrap, hm, he, hp, jsonFields, failBody,
      JsValue.isUndefined, getField]

/-- C3 (amended): a login whose provider call returns an error is answered
401; exactly when the error message contains the case-sensitive substring
`Email not confirmed` the body carries `needsVerification:true` with the
fixed message, and otherwise the body carries the provider's message and no
`needsVerification` field. -/
theorem login_provider_error_401 (body : List (String × JsValue))
    (e : ProviderError)
    (he : jsTruthy (bodyField body "email") = true)
    (hp : jsTruthy (bodyField body "password") = true) :
    (loginHandler body (.err e)).response.status = 401 ∧
    (strIncludes e.message "Email not confirmed" = true →
      (loginHandler body (.err e)).response =
        ⟨401, [("success", .bool false), ("needsVerification", .bool true),
               ("message", .str "Please verify your email before logging in")]⟩) ∧
    (strIncludes e.message "Email not confirmed" = false →
      (loginHandler body (.err e)).response = ⟨401, failBody e.message⟩ ∧
      getField (loginHandler body (.err e)).response.body "needsVerification"
        = none) := by
  by_cases hm : strIncludes e.message "Email not confirmed" = true
  · simp [loginHandler, loginTry, catchWrap, he, hp, hm,
      jsonFields, failBody, JsValue.isUndefined, getField]
  · rw [Bool.not_eq_true] at hm
    simp [loginHandler, loginTry, catchWrap, he, hp, hm,
      jsonFields, failBody, JsValue.isUndefined, getField]

/-- Witness for the amended C3 at a message containing the exact
case-sensitive substring. -/
theorem login_provider_error_401_witness :
    (loginHandler [("email", .str "a@b.com"), ("password", .str "pw")]
        (.err ⟨"Email not confirmed"⟩)).response =
      ⟨401, [("success", .bool false), ("needsVerification", .bool true),
             ("message", .str "Please verify your email before logging in")]⟩ :=
  (login_provider_error_401 _ _ (by decide) (by decide)).2.1 (by decide)

/-- C4: every signup success envelope that is actually sent (provider
resolved without error and with a non-null user) carries a
`needsVerification` flag equal to the negation of the (truthy) presence of
`email_confirmed_at` on the created user, and a `user.emailConfirmed`
boolean equal to that presence; the envelope has status 200. -/
theorem signup_verification_flags (body : List (String × JsValue))
    (origin : Option String) (data : AuthData) (u : ProviderUser)
    (he : jsTruthy (bodyField body "email") = true)
    (hp : jsTruthy (bodyField body "password") = true)
    (hu : data.user = some u) :
    getField (signupHandler body origin (.ok data)).response.body
        "needsVerification"
      = some (.bool (!timestampTruthy u.email_confirmed_at)) ∧
    getField (signupHandler body origin (.ok data)).response.body "user"
      = some (userJson u) ∧
    getField (userJsonFields u) "emailConfirmed"
      = some (.bool (timestampTruthy u.email_confirmed_at)) ∧
    (signupHandler body origin (.ok data)).response.status = 200 := by
  obtain ⟨du, ds⟩ := data
  simp only [AuthData.user] at hu
  subst hu
  cases ds <;>
    simp [signupHandler, signupTry, catchWrap, he, hp, jsonFields,
      JsValue.isUndefined, getField, userJson, userJsonFields, tokenValue]

/-- Witness for C4: a concrete signup against a provider that keeps the new
user unconfirmed. -/
theorem signup_verification_flags_witness :
    getField (signupHandler [("email", .str "a@b.com"), ("password", .str "pw")]
        none (.ok ⟨some ⟨"id1", "a@b.com", none⟩, none⟩)).response.body
        "needsVerification" = some (.bool true) ∧
    getField (signupHandler [("email", .str "a@b.com"), ("password", .str "pw")]
        none (.ok ⟨some ⟨"id1", "a@b.com", none⟩, none⟩)).response.body "user"
      = some (userJson ⟨"id1", "a@b.com", none⟩) ∧
    getField (userJsonFields ⟨"id1", "a@b.com", none⟩) "emailConfirmed"
      = some (.bool false) ∧
    (signupHandler [("email", .str "a@b.com"), ("password", .str "pw")]
        none (.ok ⟨some ⟨"id1", "a@b.com", none⟩, none⟩)).response.status
      = 200 :=
  signup_verification_flags _ none _ ⟨"id1", "a@b.com", none⟩
    (by decide) (by decide) rfl

/-- C5: whenever the `try` part of any of the five endpoints throws (the
`Except.error` case: a rejecting provider call or a null-user dereference
while building the envelope), the handler catches it, logs it, and answers
exactly 500 with `{success:false, message:"Internal server error"}` — no
detail of the original error reaches the body. -/
theorem thrown_exception_500
    (sbody lbody vbody rbody : List (String × JsValue)) (origin : Option String)
    (p1 p2 p3 p4 p5 : ProviderResult)
    (cs1 cs2 cs3 cs4 cs5 : List ProviderCall)
    (h1 : signupTry sbody origin p1 = .error cs1)
    (h2 : loginTry lbody p2 = .error cs2)
    (h3 : logoutTry p3 = .error cs3)
    (h4 : verifyEmailTry vbody p4 = .error cs4)
    (h5 : resendVerificationTry rbody origin p5 = .error cs5) :
    signupHandler sbody origin p1 =
      ⟨⟨500, failBody "Internal server error"⟩, cs1, true⟩ ∧
    loginHandler lbody p2 =
      ⟨⟨500, failBody "Internal server error"⟩, cs2, true⟩ ∧
    logoutHandler p3 =
      ⟨⟨500, failBody "Internal server error"⟩, cs3, true⟩ ∧
    verifyEmailHandler vbody p4 =
      ⟨⟨500, failBody "Internal server error"⟩, cs4, true⟩ ∧
    resendVerificationHandler rbody origin p5 =
      ⟨⟨500, failBody "Internal server error"⟩, cs5, true⟩ := by
  refine ⟨?_, ?_, ?_, ?_, ?_⟩ <;>
    simp [signupHandler, loginHandler, logoutHandler, verifyEmailHandler,
      resendVerificationHandler, catchWrap, h1, h2, h3, h4, h5,
      internalErrorResponse, jsonFields, failBody, JsValue.isUndefined]

/-- Witness for C5: every endpoint with a rejecting provider call. -/
theorem thrown_exception_500_witness :
    signupHandler [("email", .str "a"), ("password", .str "b")] none .thrown =
      ⟨⟨500, failBody "Internal server error"⟩,
       [.signUp (.str "a") (.str "b") "http://localhost:4200/verify-email"],
       true⟩ ∧
    loginHandler [("email", .str "a"), ("password", .str "b")] .thrown =
      ⟨⟨500, failBody "Internal server error"⟩,
       [.signInWithPassword (.str "a") (.str "b")], true⟩ ∧
    logoutHandler .thrown =
      ⟨⟨500, failBody "Internal server error"⟩, [.signOut], true⟩ ∧
    verifyEmailHandler [("tokenHash", .str "h"), ("type", .str "email")]
        .thrown =
      ⟨⟨500, failBody "Internal server error"⟩,
       [.verifyOtp (.str "h") (.str "email")], true⟩ ∧
    resendVerificationHandler [("email", .str "a")] none .thrown =
      ⟨⟨500, failBody "Internal server error"⟩,
       [.resend "signup" (.str "a") "http://localhost:4200/verify-email"],
       true⟩ :=
  thrown_exception_500 _ _ _ _ none .thrown .thrown .thrown .thrown .thrown
    _ _ _ _ _ rfl rfl rfl rfl rfl

/-- C6 counterexample: with an origin header that is present but empty, the
`emailRedirectTo` actually passed is the local default, not the header
followed by `/verify-email` as the claim's present/absent dichotomy
demands. -/
theorem redirect_origin_empty_cex :
    (signupHandler [("email", .str "a@b.com"), ("password", .str "pw")]
        (some "") .thrown).calls =
      [.signUp (.str "a@b.com") (.str "pw")
        "http://localhost:4200/verify-email"] ∧
    ("" ++ "/verify-email" : String) ≠ "http://localhost:4200/verify-email" := by
  exact ⟨rfl, by decide⟩

/-- C6 (amended): every signup and resend-verification request that reaches
the provider passes `emailRedirectTo` equal to the origin header followed by
`/verify-email` when that header is present and nonempty, and to
`http://localhost:4200/verify-email` when it is absent or empty. -/
theorem redirect_from_origin (sbody rbody : List (String × JsValue))
    (origin : Option String) (p1 p2 : ProviderResult)
    (he : jsTruthy (bodyField sbody "email") = true)
    (hp : jsTruthy (bodyField sbody "password") = true)
    (hr : jsTruthy (bodyField rbody "email") = true) :
    (signupHandler sbody origin p1).calls =
      [.signUp (bodyField sbody "email") (bodyField sbody "password")
        (expectedRedirect origin)] ∧
    (resendVerificationHandler rbody origin p2).calls =
      [.resend "signup" (bodyField rbody "email")
        (expectedRedirect origin)] := by
  have hred : redirectUrl origin = expectedRedirect origin := by
    cases origin with
    | none => rfl
    | some o =>
      by_cases ho : o.isEmpty <;>
        simp [redirectUrl, redirectBase, expectedRedirect, ho]
  constructor
  · rcases p1 with ⟨du, ds⟩ | e | _
    · cases du <;> simp [signupHandler, signupTry, catchWrap, he, hp, hred]
    · simp [signupHandler, signupTry, catchWrap, he, hp, hred]
    · simp [signupHandler, signupTry, catchWrap, he, hp, hred]
  · cases p2 <;>
      simp [resendVerificationHandler, resendVerificationTry, catchWrap,
        hr, hred]

/-- Witness for the amended C6 with a nonempty origin header on signup and an
absent one on resend. -/
theorem redirect_from_origin_witness :
    (signupHandler [("email", .str "a@b.com"), ("password", .str "pw")]
        (some "https://app.example") .thrown).calls =
      [.signUp (.str "a@b.com") (.str "pw")
        "https://app.example/verify-email"] ∧
    (resendVerificationHandler [("email", .str "a@b.com")]
        (some "https://app.example") .thrown).calls =
      [.resend "signup" (.str "a@b.com") "https://app.example/verify-email"] :=
  redirect_from_origin _ _ (some "https://app.example") .thrown .thrown
    (by decide) (by decide) (by decide)

/-- Every non-200 fail body satisfies the envelope invariant. -/
theorem envelopeOk_failBody (s : Nat) (m : String) (h : (s == 200) = false) :
    envelopeOk ⟨s, jsonFields (failBody m)⟩ = true := by
  simp [envelopeOk, jsonFields, getField, failBody, JsValue.isUndefined, h]

/-- Every success body (its first serialized field is `success:true`)
satisfies the envelope invariant at status 200. -/
theorem envelopeOk_success200 (rest : List (String × JsValue)) :
    envelopeOk ⟨200, jsonFields (("success", JsValue.bool true) :: rest)⟩
      = true := by
  simp [envelopeOk, jsonFields, getField, JsValue.isUndefined]

/-- The 401 verification body satisfies the envelope invariant. -/
theorem envelopeOk_needsVerification401 (m : String) :
    envelopeOk ⟨401, jsonFields
      [("success", JsValue.bool false), ("needsVerification", JsValue.bool true),
       ("message", JsValue.str m)]⟩ = true := by
  simp [envelopeOk, jsonFields, getField, JsValue.isUndefined]

/-- C8: every response produced by any of the five endpoints carries a
boolean `success` field that is true exactly when the status is 200, and
every non-200 response carries a string `message` field (the `envelopeOk`
check). -/
theorem response_envelope_invariant
    (sbody lbody vbody rbody : List (String × JsValue)) (origin : Option String)
    (p1 p2 p3 p4 p5 : ProviderResult) :
    envelopeOk (signupHandler sbody origin p1).response = true ∧
    envelopeOk (loginHandler lbody p2).response = true ∧
    envelopeOk (logoutHandler p3).response = true ∧
    envelopeOk (verifyEmailHandler vbody p4).response = true ∧
    envelopeOk (resendVerificationHandler rbody origin p5).response = true := by
  refine ⟨?_, ?_, ?_, ?_, ?_⟩ <;>
  · simp only [signupHandler, signupTry, loginHandler, loginTry,
      logoutHandler, logoutTry, verifyEmailHandler, verifyEmailTry,
      resendVerificationHandler, resendVerificationTry]
    repeat' split
    all_goals
      simp only [catchWrap]
      first
      | exact envelopeOk_success200 _
      | exact envelopeOk_failBody _ _ rfl
      | exact envelopeOk_needsVerification401 _

/-- C7: no execution of a single request performs two provider calls — every
handler makes at most one call on the provider client, with no retry. -/
theorem at_most_one_provider_call
    (sbody lbody vbody rbody : List (String × JsValue)) (origin : Option String)
    (p1 p2 p3 p4 p5 : ProviderResult) :
    (signupHandler sbody origin p1).calls.length ≤ 1 ∧
    (loginHandler lbody p2).calls.length ≤ 1 ∧
    (logoutHandler p3).calls.length ≤ 1 ∧
    (verifyEmailHandler vbody p4).calls.length ≤ 1 ∧
    (resendVerificationHandler rbody origin p5).calls.length ≤ 1 := by
  refine ⟨?_, ?_, ?_, ?_, ?_⟩ <;>
  · simp only [signupHandler, signupTry, loginHandler, loginTry,
      logoutHandler, logoutTry, verifyEmailHandler, verifyEmailTry,
      resendVerificationHandler, resendVerificationTry]
    repeat' split
    all_goals simp [catchWrap]
